import Mathlib

/-!
Verification of the ogp-checker terminal client against its specification.

The development shallowly embeds the Rust sources:
  src/ogp.rs   -- OGPInfo, AppState, normalize_url, update_ogp, fetch_ogp_info
  src/ui.rs    -- UI::handle_input, UI::draw_image_with_colors
  src/main.rs  -- main (one-shot mode), print_ogp_info
  src/image.rs -- Image

Strings edited by cursor position are modelled as lists of characters;
network fetches and image decoding are external capabilities, so they are
passed as explicit outcome parameters (oracles) to the embedded functions.
-/

namespace OgpChecker

/-- Embeds src/image.rs Image: an RGB sample grid with explicit width and
height; pixels is the row-major sample list.  Byte components are modelled
as naturals. -/
structure Image where
  width : Nat
  height : Nat
  pixels : List (Nat × Nat × Nat)
deriving Repr, DecidableEq

/-- Final OGPInfo record as used by src/main.rs print_ogp_info and
src/ui.rs draw_ui, where metadata is an ordered list of
(tag, content) pairs.  (The superseded declaration in src/ogp.rs has
metadata as a plain list of content strings; see fetch_metadata_contents.) -/
structure OGPInfo where
  title : String
  description : String
  image : String
  metadata : List (String × String)
deriving Repr, DecidableEq

/-- Embeds src/ogp.rs AppState.  The url text is modelled as a list of
characters so that cursor positions index characters.  The metadata_offset
field is the scroll offset used by src/ui.rs handle_input and draw_ui
(the spec's metadata_scroll_offset); the superseded AppState declaration
in src/ogp.rs omits it. -/
structure AppState where
  url : List Char
  cursor_position : Nat
  ogp_info : Option OGPInfo
  cached_image : Option Image
  error_message : Option String
  metadata_offset : Nat
deriving Repr, DecidableEq

/-- Embeds src/ogp.rs AppState::new. -/
def AppState.new : AppState :=
  { url := []
    cursor_position := 0
    ogp_info := none
    cached_image := none
    error_message := none
    metadata_offset := 0 }

/-- Embeds src/ogp.rs AppState::normalize_url (and the free normalize_url
used by src/main.rs): if the url lacks an http:// or https:// scheme,
prepend http://. -/
def normalize_url (url : List Char) : List Char :=
  if "http://".data.isPrefixOf url || "https://".data.isPrefixOf url then
    url
  else
    "http://".data ++ url

/-- Error-message text built by src/ogp.rs update_ogp on a failed document
fetch. -/
def fetch_error_text (err : String) : String :=
  "Failed to fetch OGP info: " ++ err

/-- Embeds src/ogp.rs update_ogp (lines 56-81).  The two network steps are
external capabilities, so their outcomes are parameters: ogp_result is the
outcome of fetch_ogp_info and img_fetch the outcome of fetch_dynamic_image
composed with Image::from_dynamic_image.  As in the source, the image fetch
is attempted only when the document fetch succeeded, and its error is
discarded with .ok(); the final lock-held commit assigns ogp_info,
cached_image and error_message on success, and only error_message on
failure. -/
def update_ogp (s : AppState) (ogp_result : Except String OGPInfo)
    (img_fetch : Except String Image) : AppState :=
  let dynamic_img_result : Option Image :=
    match ogp_result with
    | Except.ok _ => img_fetch.toOption
    | Except.error _ => none
  match ogp_result with
  | Except.ok info =>
      { s with ogp_info := some info
               cached_image := dynamic_img_result
               error_message := none }
  | Except.error err =>
      { s with error_message := some (fetch_error_text err) }

/-- A meta element of the parsed document, keeping only the attributes the
program reads: property, name and content (each possibly absent). -/
structure MetaElem where
  property : Option String
  name : Option String
  content : Option String
deriving Repr, DecidableEq

/-- Embeds the metadata collection of src/ogp.rs fetch_ogp_info
(lines 264-267): over all meta elements of the document in document order,
filter_map of the content attribute, so elements without a content
attribute are skipped and the property and name attributes are ignored. -/
def fetch_metadata_contents (doc : List MetaElem) : List String :=
  doc.filterMap (fun e => e.content)

/-- Modelled from the spec: the metadata extraction of the final
fetch_ogp_info, absent from src/ (its callers src/main.rs and src/ui.rs
destructure the result as (tag, content) pairs): "the full ordered list of
all meta elements' (property-or-name, content) pairs (elements lacking
both property and name are skipped; elements lacking content use empty
string)". -/
def extract_meta_tags (doc : List MetaElem) : List (String × String) :=
  doc.filterMap (fun e =>
    match e.property.or e.name with
    | some tag => some (tag, e.content.getD "")
    | none => none)

/-- Concrete document with a meta element carrying only a name attribute
and a meta element carrying only a content attribute. -/
def c1_failing_doc : List MetaElem :=
  [{ property := none, name := some "a", content := none },
   { property := none, name := none, content := some "c" }]

/-- Insertion of a character at position i of a character list, as Rust's
String::insert does on the url field. -/
def insertAt (l : List Char) (i : Nat) (c : Char) : List Char :=
  l.take i ++ c :: l.drop i

/-- Removal of the character at position i of a character list, as Rust's
String::remove does on the url field. -/
def removeAt (l : List Char) (i : Nat) : List Char :=
  l.take i ++ l.drop (i + 1)

/-- Key events read by the input loop, restricted to the variants matched
by src/ui.rs handle_input; other covers every other key code. -/
inductive KeyCode where
  | char (c : Char)
  | backspace
  | left
  | right
  | up
  | down
  | enter
  | esc
  | other
deriving Repr, DecidableEq

/-- Synchronous outcome of one handle_input call: the mutated state,
whether the loop breaks (Esc), and whether a fetch task was spawned. -/
structure StepResult where
  state : AppState
  quit : Bool
  spawned_fetch : Bool
deriving Repr, DecidableEq

/-- Embeds src/ui.rs UI::handle_input (lines 179-242): the synchronous
state transition performed under the lock for one key event.  The
Enter-on-non-empty-url branch spawns the asynchronous update_ogp task and
returns with the state unchanged; the spawned_fetch flag records the
spawn.  Redraw signalling is not modelled. -/
def handle_input (s : AppState) (key : KeyCode) : StepResult :=
  match key with
  | KeyCode.char c =>
      { state := { s with url := insertAt s.url s.cursor_position c
                          cursor_position := s.cursor_position + 1 }
        quit := false, spawned_fetch := false }
  | KeyCode.backspace =>
      if s.cursor_position > 0 then
        { state := { s with url := removeAt s.url (s.cursor_position - 1)
                            cursor_position := s.cursor_position - 1 }
          quit := false, spawned_fetch := false }
      else
        { state := s, quit := false, spawned_fetch := false }
  | KeyCode.left =>
      if s.cursor_position > 0 then
        { state := { s with cursor_position := s.cursor_position - 1 }
          quit := false, spawned_fetch := false }
      else
        { state := s, quit := false, spawned_fetch := false }
  | KeyCode.right =>
      if s.cursor_position < s.url.length then
        { state := { s with cursor_position := s.cursor_position + 1 }
          quit := false, spawned_fetch := false }
      else
        { state := s, quit := false, spawned_fetch := false }
  | KeyCode.up =>
      if s.metadata_offset > 0 then
        { state := { s with metadata_offset := s.metadata_offset - 1 }
          quit := false, spawned_fetch := false }
      else
        { state := s, quit := false, spawned_fetch := false }
  | KeyCode.down =>
      match s.ogp_info with
      | some info =>
          if s.metadata_offset + 1 < info.metadata.length then
            { state := { s with metadata_offset := s.metadata_offset + 1 }
              quit := false, spawned_fetch := false }
          else
            { state := s, quit := false, spawned_fetch := false }
      | none => { state := s, quit := false, spawned_fetch := false }
  | KeyCode.enter =>
      if s.url.isEmpty then
        { state := { s with ogp_info := none
                            cached_image := none
                            error_message := none }
          quit := false, spawned_fetch := false }
      else
        { state := s, quit := false, spawned_fetch := true }
  | KeyCode.esc => { state := s, quit := true, spawned_fetch := false }
  | KeyCode.other => { state := s, quit := false, spawned_fetch := false }

/-- Folding handle_input over a sequence of key events. -/
def apply_inputs (s : AppState) (ks : List KeyCode) : AppState :=
  ks.foldl (fun t k => (handle_input t k).state) s

/-- The cursor invariant of the data model: cursor_position is a valid
insertion index into url. -/
def cursor_inv (s : AppState) : Prop :=
  s.cursor_position ≤ s.url.length

instance (s : AppState) : Decidable (cursor_inv s) := by
  unfold cursor_inv; infer_instance

/-- Source column sampled by src/ui.rs UI::draw_image_with_colors for
target column x: x * img.width / target_width, with Nat (floor) division
as in Rust. -/
def src_x (img : Image) (tw x : Nat) : Nat :=
  x * img.width / tw

/-- Source row sampled by src/ui.rs UI::draw_image_with_colors for target
row y: y * img.height / target_height. -/
def src_y (img : Image) (th y : Nat) : Nat :=
  y * img.height / th

/-- Row-major pixel index computed by src/ui.rs UI::draw_image_with_colors:
src_y * img.width + src_x. -/
def src_index (img : Image) (tw th x y : Nat) : Nat :=
  src_y img th y * img.width + src_x img tw x

/-- Embeds the double loop of src/ui.rs UI::draw_image_with_colors
(lines 148-177): the list of cells painted on a target rectangle of
tw by th cells, each as (x, display_row, pixel index), with display_row
the vertically flipped th - 1 - y. -/
def painted_cells (img : Image) (tw th : Nat) : List (Nat × Nat × Nat) :=
  ((List.range th).map (fun y =>
    (List.range tw).map (fun x => (x, th - 1 - y, src_index img tw th x y)))).flatten

/-- Embeds src/main.rs print_ogp_info (lines 47-55): the labeled stdout
lines for a metadata record, one list element per println call. -/
def print_ogp_info (info : OGPInfo) : List String :=
  ["Title: " ++ info.title,
   "Description: " ++ info.description,
   "Image URL: " ++ info.image,
   "Metadata:"]
  ++ info.metadata.map (fun tc => "\"" ++ tc.1 ++ "\" - \"" ++ tc.2 ++ "\"")

/-- Modelled from the spec: the structured machine-readable rendering of
the record is produced by the external serde_json library; modelled as a
structured document mirroring the same fields. -/
def json_render (info : OGPInfo) : String :=
  "\x7b \"title\": \"" ++ info.title
    ++ "\", \"description\": \"" ++ info.description
    ++ "\", \"image\": \"" ++ info.image
    ++ "\", \"metadata\": ["
    ++ String.intercalate ", "
        (info.metadata.map (fun tc => "[\"" ++ tc.1 ++ "\", \"" ++ tc.2 ++ "\"]"))
    ++ "] \x7d"

/-- Outcome of one program run of src/main.rs main, with counters for the
network operations performed. -/
structure MainResult where
  doc_fetches : Nat
  image_fetches : Nat
  interactive : Bool
  stdout_lines : List String
  stderr_lines : List String
deriving Repr, DecidableEq

/-- Embeds src/main.rs main (lines 21-45): with a url argument present,
exactly one fetch_ogp_info call is made on the normalized url and its
result printed (structured output when the json flag is set); no image
fetch happens in this mode, and the interactive loop is never entered.
With no url argument the interactive UI runs instead.  The document fetch
outcome is an oracle parameter. -/
def main_run (url : String) (json : Bool)
    (fetch_result : Except String OGPInfo) : MainResult :=
  if url.isEmpty then
    { doc_fetches := 0, image_fetches := 0, interactive := true
      stdout_lines := [], stderr_lines := [] }
  else
    match fetch_result with
    | Except.ok info =>
        { doc_fetches := 1, image_fetches := 0, interactive := false
          stdout_lines := if json then [json_render info] else print_ogp_info info
          stderr_lines := [] }
    | Except.error e =>
        { doc_fetches := 1, image_fetches := 0, interactive := false
          stdout_lines := []
          stderr_lines := ["Error fetching OGP info: " ++ e] }

/-- Modelled from the spec: FetchPipeline step 4 attempts the image fetch
exactly when the og:image content is non-empty (the best-effort image
step). -/
def pipeline_image_attempts (info : OGPInfo) : Nat :=
  if info.image.isEmpty then 0 else 1

/-- Concrete 1-by-1 image used in counterexamples and witnesses. -/
def img0 : Image := { width := 1, height := 1, pixels := [(7, 8, 9)] }

/-- Concrete fetched record with a non-empty og:image URL. -/
def info0 : OGPInfo :=
  { title := "Hello"
    description := "World"
    image := "http://example.com/a.png"
    metadata := [("og:title", "Hello")] }

/-- Concrete session state that already displays a cached image. -/
def s_cached : AppState :=
  { url := "http://example.com".data
    cursor_position := 3
    ogp_info := some info0
    cached_image := some img0
    error_message := none
    metadata_offset := 1 }

/-- Concrete session state with an empty url field but populated result
fields. -/
def s_empty_url : AppState :=
  { url := []
    cursor_position := 0
    ogp_info := some info0
    cached_image := some img0
    error_message := some "previous failure"
    metadata_offset := 2 }

/-- Concrete 2-by-3 image satisfying the PixelImage invariant. -/
def img6 : Image :=
  { width := 2, height := 3
    pixels := [(0, 0, 0), (1, 1, 1), (2, 2, 2), (3, 3, 3), (4, 4, 4), (5, 5, 5)] }

end OgpChecker

namespace OgpChecker

/-- A list is a Boolean-prefix of itself followed by anything. -/
theorem isPrefixOf_append_self (l t : List Char) : l.isPrefixOf (l ++ t) = true := by
  induction l with
  | nil => cases t <;> rfl
  | cons a l ih => simp [List.isPrefixOf, ih]

/-- Length of insertAt at a valid insertion index. -/
theorem length_insertAt (l : List Char) (i : Nat) (c : Char) (h : i ≤ l.length) :
    (insertAt l i c).length = l.length + 1 := by
  simp [insertAt]
  omega

/-- Length of removeAt at a valid element index. -/
theorem length_removeAt (l : List Char) (i : Nat) (h : i < l.length) :
    (removeAt l i).length = l.length - 1 := by
  simp [removeAt]
  omega

/-- Every single key event preserves the cursor invariant. -/
theorem handle_input_cursor_inv (s : AppState) (k : KeyCode)
    (h : cursor_inv s) : cursor_inv (handle_input s k).state := by
  unfold cursor_inv at h ⊢
  cases k with
  | char c =>
      simp [handle_input, length_insertAt s.url s.cursor_position c h]
      exact h
  | backspace =>
      by_cases hc : s.cursor_position > 0
      · have hlt : s.cursor_position - 1 < s.url.length := by omega
        simp [handle_input, hc, length_removeAt s.url (s.cursor_position - 1) hlt]
        omega
      · simp [handle_input, hc]; exact h
  | left =>
      by_cases hc : s.cursor_position > 0
      · simp [handle_input, hc]; omega
      · simp [handle_input, hc]; exact h
  | right =>
      by_cases hc : s.cursor_position < s.url.length
      · simp [handle_input, hc]; omega
      · simp [handle_input, hc]; exact h
  | up =>
      by_cases hc : s.metadata_offset > 0
      · simp [handle_input, hc]; exact h
      · simp [handle_input, hc]; exact h
  | down =>
      cases hinfo : s.ogp_info with
      | some info =>
          by_cases hc : s.metadata_offset + 1 < info.metadata.length
          · simp [handle_input, hinfo, hc]; exact h
          · simp [handle_input, hinfo, hc]; exact h
      | none => simp [handle_input, hinfo]; exact h
  | enter =>
      by_cases hc : s.url.isEmpty
      · simp [handle_input, hc]; exact h
      · simp [handle_input, hc]; exact h
  | esc => exact h
  | other => exact h

/-- The cursor invariant is preserved by any sequence of key events. -/
theorem apply_inputs_cursor_inv (ks : List KeyCode) :
    ∀ s : AppState, cursor_inv s → cursor_inv (apply_inputs s ks) := by
  induction ks with
  | nil => intro s h; exact h
  | cons k ks ih =>
      intro s h
      exact ih (handle_input s k).state (handle_input_cursor_inv s k h)

/-- When either target dimension is zero, the loop bodies never execute and
no cell is painted. -/
theorem painted_cells_degenerate (img : Image) (tw th : Nat) :
    painted_cells img tw 0 = [] ∧ painted_cells img 0 th = [] := by
  constructor
  · rfl
  · unfold painted_cells
    have hall : ∀ l : List Nat,
        (l.map (fun y => (List.range 0).map
          (fun x => (x, th - 1 - y, src_index img 0 th x y)))).flatten
          = ([] : List (Nat × Nat × Nat)) := by
      intro l
      induction l with
      | nil => rfl
      | cons a l ih => simp [ih]
    exact hall (List.range th)

/-- C9: URL normalization is idempotent for every input string:
normalize_url (normalize_url u) = normalize_url u. -/
theorem normalize_url_idempotent (url : List Char) :
    normalize_url (normalize_url url) = normalize_url url := by
  unfold normalize_url
  by_cases h : ("http://".data.isPrefixOf url || "https://".data.isPrefixOf url) = true
  · simp [h]
  · simp only [h, if_neg, Bool.not_eq_true, if_false]
    simp [isPrefixOf_append_self]

/-- C1: evaluation at the failing input.  On a document holding a meta
element with only a name attribute and a meta element with only a content
attribute, the metadata collection of src/ogp.rs fetch_ogp_info yields the
single content string "c" (no pairs, the name-only element dropped, the
property-and-name-less element kept), while the specified extraction
yields the single pair ("a", ""). -/
theorem fetch_metadata_divergence :
    fetch_metadata_contents c1_failing_doc = ["c"] ∧
    extract_meta_tags c1_failing_doc = [("a", "")] := by
  constructor <;> rfl

/-- C2: when the document retrieval fails, update_ogp leaves ogp_info and
cached_image exactly as they were and sets error_message to a non-empty
string; when it succeeds, error_message is cleared to none and ogp_info is
replaced by the new record. -/
theorem update_ogp_result_rule (s : AppState) (err : String)
    (imgf imgs : Except String Image) (info : OGPInfo) :
    ((update_ogp s (Except.error err) imgf).ogp_info = s.ogp_info
      ∧ (update_ogp s (Except.error err) imgf).cached_image = s.cached_image
      ∧ (update_ogp s (Except.error err) imgf).error_message
          = some (fetch_error_text err)
      ∧ fetch_error_text err ≠ "")
    ∧ ((update_ogp s (Except.ok info) imgs).error_message = none
      ∧ (update_ogp s (Except.ok info) imgs).ogp_info = some info) := by
  refine ⟨⟨rfl, rfl, rfl, ?_⟩, rfl, rfl⟩
  intro h
  have hlen : (fetch_error_text err).length = 0 := by rw [h]; rfl
  rw [fetch_error_text, String.length_append] at hlen
  have h26 : ("Failed to fetch OGP info: ").length = 26 := rfl
  omega

/-- C3: counterexample.  Starting from a state whose cached_image is a
previously decoded image, a fetch whose document step succeeds but whose
image step fails does NOT keep cached_image unchanged: update_ogp
overwrites it with none. -/
theorem update_ogp_clobbers_cached_image :
    s_cached.cached_image = some img0 ∧
    (update_ogp s_cached (Except.ok info0)
        (Except.error "image fetch failed")).cached_image
      ≠ s_cached.cached_image := by
  exact ⟨rfl, by decide⟩

/-- C3 amended: on a successful document fetch, update_ogp replaces
cached_image unconditionally with the image step's optional result, so when
the image step fails the previous image is dropped and cached_image becomes
none, and when it succeeds the new image is installed. -/
theorem update_ogp_cached_image_replaced (s : AppState) (info : OGPInfo)
    (imgErr : String) (img : Image) :
    (update_ogp s (Except.ok info) (Except.error imgErr)).cached_image = none
    ∧ (update_ogp s (Except.ok info) (Except.ok img)).cached_image = some img := by
  exact ⟨rfl, rfl⟩

/-- C4: failure of the image step never fails the pipeline: when the
document fetch succeeds and the image fetch or decode fails, update_ogp
still commits a success outcome carrying the metadata record, with the
image merely absent and no error message surfaced. -/
theorem update_ogp_image_best_effort (s : AppState) (info : OGPInfo)
    (imgErr : String) :
    (update_ogp s (Except.ok info) (Except.error imgErr)).ogp_info = some info
    ∧ (update_ogp s (Except.ok info) (Except.error imgErr)).cached_image = none
    ∧ (update_ogp s (Except.ok info) (Except.error imgErr)).error_message = none := by
  exact ⟨rfl, rfl, rfl⟩

/-- C5: for every prior session state, Enter on an empty url field clears
ogp_info, cached_image and error_message synchronously and does not spawn
the fetch pipeline. -/
theorem handle_input_empty_enter_clears (s : AppState) (h : s.url = []) :
    (handle_input s KeyCode.enter).state.ogp_info = none
    ∧ (handle_input s KeyCode.enter).state.cached_image = none
    ∧ (handle_input s KeyCode.enter).state.error_message = none
    ∧ (handle_input s KeyCode.enter).spawned_fetch = false := by
  simp [handle_input, h]

/-- C5 witness: the clearing rule applied to a concrete populated state. -/
theorem handle_input_empty_enter_clears_witness :
    s_empty_url.url = [] ∧
    ((handle_input s_empty_url KeyCode.enter).state.ogp_info = none
    ∧ (handle_input s_empty_url KeyCode.enter).state.cached_image = none
    ∧ (handle_input s_empty_url KeyCode.enter).state.error_message = none
    ∧ (handle_input s_empty_url KeyCode.enter).spawned_fetch = false) :=
  ⟨rfl, handle_input_empty_enter_clears s_empty_url rfl⟩

/-- C7: after every sequence of key inputs applied to a session state
satisfying the cursor invariant, cursor_position is still a valid
insertion index into url (it lies in the interval from 0 to the url
length). -/
theorem apply_inputs_cursor_in_range (s : AppState) (ks : List KeyCode)
    (h : cursor_inv s) :
    (apply_inputs s ks).cursor_position ≤ (apply_inputs s ks).url.length :=
  apply_inputs_cursor_inv ks s h

/-- C7 witness: a concrete editing sequence from the initial state. -/
theorem apply_inputs_cursor_in_range_witness :
    cursor_inv AppState.new ∧
    (apply_inputs AppState.new
        [KeyCode.char 'a', KeyCode.char 'b', KeyCode.left,
         KeyCode.backspace, KeyCode.right]).cursor_position
      ≤ (apply_inputs AppState.new
        [KeyCode.char 'a', KeyCode.char 'b', KeyCode.left,
         KeyCode.backspace, KeyCode.right]).url.length :=
  ⟨by decide,
   apply_inputs_cursor_in_range AppState.new
     [KeyCode.char 'a', KeyCode.char 'b', KeyCode.left,
      KeyCode.backspace, KeyCode.right] (by decide)⟩

/-- C8: for every image with the PixelImage invariant (positive
dimensions, sample list of length width * height) and every target cell
rectangle with both dimensions positive, the source index computed by the
renderer for any target cell lies within the sample bounds; a 1-by-1
target samples source position (0, 0); and a zero target dimension paints
no cell (so the divisions are never reached). -/
theorem renderer_src_index_safe (img : Image) (tw th x y : Nat)
    (hw : 0 < img.width) (hh : 0 < img.height)
    (hpix : img.pixels.length = img.width * img.height)
    (htw : 0 < tw) (hth : 0 < th) (hx : x < tw) (hy : y < th) :
    src_index img tw th x y < img.width * img.height
    ∧ src_index img tw th x y < img.pixels.length
    ∧ (src_x img 1 0 = 0 ∧ src_y img 1 0 = 0)
    ∧ painted_cells img tw 0 = []
    ∧ painted_cells img 0 th = [] := by
  have hsx : src_x img tw x < img.width := by
    unfold src_x
    rw [Nat.div_lt_iff_lt_mul htw]
    calc x * img.width < tw * img.width := mul_lt_mul_of_pos_right hx hw
      _ = img.width * tw := Nat.mul_comm tw img.width
  have hsy : src_y img th y < img.height := by
    unfold src_y
    rw [Nat.div_lt_iff_lt_mul hth]
    calc y * img.height < th * img.height := mul_lt_mul_of_pos_right hy hh
      _ = img.height * th := Nat.mul_comm th img.height
  have hidx : src_index img tw th x y < img.width * img.height := by
    unfold src_index
    calc src_y img th y * img.width + src_x img tw x
        < src_y img th y * img.width + img.width := Nat.add_lt_add_left hsx _
      _ = (src_y img th y + 1) * img.width := (Nat.succ_mul _ _).symm
      _ ≤ img.height * img.width := Nat.mul_le_mul_right img.width hsy
      _ = img.width * img.height := Nat.mul_comm img.height img.width
  refine ⟨hidx, ?_, ⟨?_, ?_⟩, (painted_cells_degenerate img tw th).1,
    (painted_cells_degenerate img tw th).2⟩
  · rw [hpix]; exact hidx
  · simp [src_x]
  · simp [src_y]

/-- C8 witness: the renderer safety property at a concrete image and a
concrete 4-by-2 target rectangle. -/
theorem renderer_src_index_safe_witness :
    (0 < img6.width ∧ 0 < img6.height
      ∧ img6.pixels.length = img6.width * img6.height
      ∧ 0 < 4 ∧ 0 < 2 ∧ 3 < 4 ∧ 1 < 2)
    ∧ (src_index img6 4 2 3 1 < img6.width * img6.height
      ∧ src_index img6 4 2 3 1 < img6.pixels.length
      ∧ (src_x img6 1 0 = 0 ∧ src_y img6 1 0 = 0)
      ∧ painted_cells img6 4 0 = []
      ∧ painted_cells img6 0 2 = []) :=
  ⟨⟨by decide, by decide, by decide, by decide, by decide, by decide, by decide⟩,
   renderer_src_index_safe img6 4 2 3 1 (by decide) (by decide) (by decide)
     (by decide) (by decide) (by decide) (by decide)⟩

/-- C6: counterexample.  In one-shot mode on a record whose og:image URL
is non-empty, the program performs zero image fetches, while a
FetchPipeline invocation including its best-effort image step would
perform one. -/
theorem main_run_no_image_step :
    (main_run "example.com" false (Except.ok info0)).image_fetches = 0
    ∧ pipeline_image_attempts info0 = 1
    ∧ (main_run "example.com" false (Except.ok info0)).image_fetches
        ≠ pipeline_image_attempts info0 := by
  refine ⟨rfl, by decide, by decide⟩

/-- C6 amended: with a url argument at startup the program performs
exactly one document fetch and no image fetch, prints the labeled lines
Title:, Description:, Image URL:, a Metadata: heading, then each tag as
quoted tag - quoted content (or the structured document when the json flag
is set), prints fetch errors to the error stream, and never enters the
interactive loop. -/
theorem main_run_one_shot (url : String) (json : Bool) (info : OGPInfo)
    (e : String) (h : url.isEmpty = false) :
    (main_run url json (Except.ok info)).doc_fetches = 1
    ∧ (main_run url json (Except.ok info)).image_fetches = 0
    ∧ (main_run url json (Except.ok info)).interactive = false
    ∧ (main_run url json (Except.ok info)).stdout_lines
        = (if json then [json_render info] else print_ogp_info info)
    ∧ (main_run url json (Except.error e)).interactive = false
    ∧ (main_run url json (Except.error e)).stderr_lines
        = ["Error fetching OGP info: " ++ e] := by
  simp [main_run, h]

/-- C6 amended witness: one-shot run at a concrete url and record. -/
theorem main_run_one_shot_witness :
    ("example.com" : String).isEmpty = false
    ∧ ((main_run "example.com" false (Except.ok info0)).doc_fetches = 1
    ∧ (main_run "example.com" false (Except.ok info0)).image_fetches = 0
    ∧ (main_run "example.com" false (Except.ok info0)).interactive = false
    ∧ (main_run "example.com" false (Except.ok info0)).stdout_lines
        = (if false then [json_render info0] else print_ogp_info info0)
    ∧ (main_run "example.com" false (Except.error "boom")).interactive = false
    ∧ (main_run "example.com" false (Except.error "boom")).stderr_lines
        = ["Error fetching OGP info: " ++ "boom"]) :=
  ⟨by decide, main_run_one_shot "example.com" false info0 "boom" (by decide)⟩

/-- C10: whatever its outcome, update_ogp mutates only ogp_info,
cached_image and error_message: url, cursor_position and the metadata
scroll offset are returned unchanged. -/
theorem update_ogp_frame (s : AppState) (r : Except String OGPInfo)
    (imgf : Except String Image) :
    (update_ogp s r imgf).url = s.url
    ∧ (update_ogp s r imgf).cursor_position = s.cursor_position
    ∧ (update_ogp s r imgf).metadata_offset = s.metadata_offset := by
  cases r <;> exact ⟨rfl, rfl, rfl⟩

end OgpChecker
